import Mathlib

/-!
Shallow embedding of `src/Hack/Modules/ship.py` from the SoT-ESP-Framework:
the `ShipModule` tracked-entity record and its `update` state machine.

External collaborators that live outside this file's source (the memory
reader, `helpers.calculate_distance`, `helpers.object_to_screen`, the name
mapping table, the crew registry, `DisplayObject` helpers) are modelled as
an abstract environment `Env` supplied to each call, since the game memory
they read is externally mutated.  Numeric values are modelled as rationals;
pyglet visuals are modelled as records carrying position, visibility, and a
deletion counter (one `delete()` call increments it by one).
-/

namespace SoT

/-- A 3D world coordinate (the Python coordinate dictionary with x, y, z). -/
structure Coord where
  x : ℚ
  y : ℚ
  z : ℚ
deriving DecidableEq

/-- `CIRCLE_SIZE = 25` from ship.py. -/
def CIRCLE_SIZE : ℚ := 25

/-- Character-list prefix test used to model Python's substring operator. -/
def charsStartWith : List Char → List Char → Bool
  | [], _ => true
  | _ :: _, [] => false
  | p :: ps, c :: cs => p == c && charsStartWith ps cs

/-- Does `pat` occur inside the character list? -/
def charsOccur (pat : List Char) : List Char → Bool
  | [] => charsStartWith pat []
  | c :: cs => charsStartWith pat (c :: cs) || charsOccur pat cs

/-- Python's `pat in s` substring containment on strings. -/
def strIn (pat s : String) : Bool := charsOccur pat.data s.data

/-- The pyglet `Circle` marker: position, visibility, RGB color, and how many
times `delete()` has been called on it. -/
structure Circle where
  x : ℚ
  y : ℚ
  visible : Bool
  color : Nat × Nat × Nat
  deleteCount : Nat
deriving DecidableEq

/-- The pyglet `Sprite` icon: position, visibility, which ship icon image it
carries, and how many times `delete()` has been called on it. -/
structure Sprite where
  x : ℚ
  y : ℚ
  visible : Bool
  deleteCount : Nat
deriving DecidableEq

/-- The pyglet text label: position, text, visibility, and how many times
`delete()` has been called on it. -/
structure Label where
  x : ℚ
  y : ℚ
  text : String
  visible : Bool
  deleteCount : Nat
deriving DecidableEq

/-- `Circle.delete()`: one more deletion of the underlying resource. -/
def Circle.delete (c : Circle) : Circle := { c with deleteCount := c.deleteCount + 1 }

/-- `Sprite.delete()`: one more deletion of the underlying resource. -/
def Sprite.delete (c : Sprite) : Sprite := { c with deleteCount := c.deleteCount + 1 }

/-- `Label.delete()`: one more deletion of the underlying resource. -/
def Label.delete (c : Label) : Label := { c with deleteCount := c.deleteCount + 1 }

/-- The external collaborators read by ship.py, abstracted as pure functions
of the current (externally controlled) game-memory snapshot.  One `Env` is
supplied per call, since the external process can mutate memory between
frames. -/
structure Env where
  /-- `DisplayObject._get_actor_id(address)`: the identity token currently
  stored at an actor address. -/
  getActorId : Nat → Nat
  /-- `DisplayObject._get_root_comp_address(address)`: resolves the position
  component sub-address. -/
  getRootCompAddress : Nat → Nat
  /-- `DisplayObject.coord_offset`, a fixed offset constant. -/
  coordOffset : Nat
  /-- `mapping.ships.get(raw_name).get("Name")`: raw name to display name. -/
  shipName : String → String
  /-- `DisplayObject._coord_builder(root_ptr, offset)`: reads the world
  coordinates at a position component address. -/
  coordBuilder : Nat → Nat → Coord
  /-- Modelled from the spec: `helpers.calculate_distance`, absent from the
  sources, "scalar distance between `worldCoords` and `viewerCoords`" —
  kept abstract as the environment's distance oracle. -/
  calculateDistance : Coord → Coord → ℚ
  /-- Modelled from the spec: `helpers.object_to_screen`, absent from the
  sources, "optional 2D coordinate; returns empty when the target is outside
  the viewer's frustum". -/
  objectToScreen : Coord → Coord → Option (ℚ × ℚ)
  /-- `Ship.get_crew_guid(address)`: the crew guid stored for an actor. -/
  getCrewGuid : Nat → Nat
  /-- `Crew.tracker[guid].color[:3]` when `guid in Crew.tracker`, else none. -/
  crewColor : Nat → Option (Nat × Nat × Nat)

/-- The `ShipModule` record: one tracked ship actor mirrored from external
memory, together with its three exclusively-owned visuals. -/
structure ShipModule where
  actor_id : Nat
  address : Nat
  actor_root_comp_ptr : Nat
  coord_offset : Nat
  my_coords : Coord
  raw_name : String
  name : String
  coords : Coord
  distance : ℚ
  screen_coords : Option (ℚ × ℚ)
  crew_guid : Nat
  text_str : String
  text_render : Label
  circle : Circle
  icon : Sprite
  to_delete : Bool
deriving DecidableEq

/-- `ShipModule._built_text_string`: the f-string
`f"{self.name} - {self.distance}m"` over the given name and distance. -/
def built_text_string (name : String) (distance : ℚ) : String :=
  name ++ " - " ++ toString distance ++ "m"

/-- `ShipModule._built_text_string()` applied to the record's own fields. -/
def ShipModule._built_text_string (s : ShipModule) : String :=
  built_text_string s.name s.distance

/-- The identity-mismatch terminal branch of `update` (lines 141-146):
set `to_delete`, delete circle, icon and label, return. -/
def terminalStep (s : ShipModule) : ShipModule :=
  { s with to_delete := true
           circle := s.circle.delete
           icon := s.icon.delete
           text_render := s.text_render.delete }

/-- The visibility decided by the near/far distance switch (lines 158-169):
invisible when the name has the "Near" qualifier and the distance exceeds
1750, invisible when it lacks the qualifier and the distance is below 1750,
visible otherwise. -/
def visFlag (name : String) (new_distance : ℚ) : Bool :=
  if strIn "Near" name && decide (new_distance > 1750) then false
  else if !strIn "Near" name && decide (new_distance < 1750) then false
  else true

/-- The on-screen branch of `update` (lines 155-186): the near/far distance
switch on visibility, repositioning of all three visuals, crew recoloring,
and distance/text refresh.  `s` is the record after `my_coords`, `coords`
and `screen_coords` have been reassigned; `new_distance` and `sc` are the
freshly computed distance and screen coordinates. -/
def onScreenStep (env : Env) (s : ShipModule) (new_distance : ℚ)
    (sc : ℚ × ℚ) : ShipModule :=
  let vis : Bool := visFlag s.name new_distance
  let circle := { s.circle with visible := vis
                                x := sc.1 - CIRCLE_SIZE / 2
                                y := sc.2 - CIRCLE_SIZE / 2 }
  let icon := { s.icon with visible := vis
                            x := sc.1 - CIRCLE_SIZE * 1.45
                            y := sc.2 - CIRCLE_SIZE * 1.45 }
  let label := { s.text_render with visible := vis
                                    x := sc.1 + CIRCLE_SIZE / 2 + 10
                                    y := sc.2 + CIRCLE_SIZE / 2 - 30 }
  let circle :=
    match env.crewColor s.crew_guid with
    | some c => { circle with color := c }
    | none => circle
  let text_str := built_text_string s.name new_distance
  { s with circle := circle
           icon := icon
           text_render := { label with text := text_str }
           distance := new_distance
           text_str := text_str }

/-- The off-screen branch of `update` (lines 188-192): set all three
visuals invisible, touching nothing else. -/
def offScreenStep (s : ShipModule) : ShipModule :=
  { s with circle := { s.circle with visible := false }
           icon := { s.icon with visible := false }
           text_render := { s.text_render with visible := false } }

/-- `ShipModule.update(my_coords)` (lines 128-192), as a pure state
transformer over the record given the current memory snapshot `env`. -/
def ShipModule.update (env : Env) (s : ShipModule) (my_coords : Coord) :
    ShipModule :=
  if env.getActorId s.address ≠ s.actor_id then
    terminalStep s
  else
    let coords := env.coordBuilder s.actor_root_comp_ptr s.coord_offset
    let new_distance := env.calculateDistance coords my_coords
    let screen_coords := env.objectToScreen my_coords coords
    let s1 := { s with my_coords := my_coords
                       coords := coords
                       screen_coords := screen_coords }
    match screen_coords with
    | some sc => onScreenStep env s1 new_distance sc
    | none => offScreenStep s1

/-- `ShipModule._delete()` (lines 194-197): delete label, circle, icon. -/
def ShipModule._delete (s : ShipModule) : ShipModule :=
  { s with text_render := s.text_render.delete
           circle := s.circle.delete
           icon := s.icon.delete }

/-- `ShipModule.__init__` (lines 27-71): construct the record and its three
visuals from the current memory snapshot. -/
def ShipModule.init (env : Env) (actor_id address : Nat) (raw_name : String)
    (my_coords : Coord) : ShipModule :=
  let actor_root_comp_ptr := env.getRootCompAddress address
  let name := env.shipName raw_name
  let coords := env.coordBuilder actor_root_comp_ptr env.coordOffset
  let distance := env.calculateDistance coords my_coords
  let screen_coords := env.objectToScreen my_coords coords
  let crew_guid := env.getCrewGuid address
  let text_str := built_text_string name distance
  let text_render : Label :=
    match screen_coords with
    | some sc => { x := sc.1 + CIRCLE_SIZE / 2 + 10
                   y := sc.2 + CIRCLE_SIZE / 2 - 30
                   text := text_str, visible := true, deleteCount := 0 }
    | none => { x := 0, y := 0, text := text_str, visible := true
                deleteCount := 0 }
  let circle : Circle :=
    match screen_coords with
    | some sc => { x := sc.1 - CIRCLE_SIZE / 2, y := sc.2 - CIRCLE_SIZE / 2
                   visible := true, color := (255, 255, 255), deleteCount := 0 }
    | none => { x := 0, y := 0, visible := true, color := (255, 255, 255)
                deleteCount := 0 }
  let icon : Sprite :=
    match screen_coords with
    | some sc => { x := sc.1 - CIRCLE_SIZE, y := sc.2 - CIRCLE_SIZE
                   visible := true, deleteCount := 0 }
    | none => { x := 0, y := 0, visible := true, deleteCount := 0 }
  { actor_id := actor_id, address := address
    actor_root_comp_ptr := actor_root_comp_ptr
    coord_offset := env.coordOffset
    my_coords := my_coords, raw_name := raw_name, name := name
    coords := coords, distance := distance, screen_coords := screen_coords
    crew_guid := crew_guid, text_str := text_str
    text_render := text_render, circle := circle, icon := icon
    to_delete := false }

/-- All three visuals visible. -/
def visibleTriple (s : ShipModule) : Bool :=
  s.circle.visible && s.icon.visible && s.text_render.visible

/-- All three visuals invisible. -/
def invisibleTriple (s : ShipModule) : Bool :=
  !s.circle.visible && !s.icon.visible && !s.text_render.visible

/-- The fresh distance an update call computes for record `s` given viewer
coordinates `m`: `calculate_distance(coord_builder(ptr, offset), m)`. -/
def newDist (env : Env) (s : ShipModule) (m : Coord) : ℚ :=
  env.calculateDistance (env.coordBuilder s.actor_root_comp_ptr s.coord_offset) m

/-- The fresh screen projection an update call computes for record `s`
given viewer coordinates `m`. -/
def newScreen (env : Env) (s : ShipModule) (m : Coord) : Option (ℚ × ℚ) :=
  env.objectToScreen m (env.coordBuilder s.actor_root_comp_ptr s.coord_offset)

/-! ## Characterization lemmas for the three branches of `update` -/

lemma update_of_mismatch (env : Env) (s : ShipModule) (m : Coord)
    (h : env.getActorId s.address ≠ s.actor_id) :
    s.update env m = terminalStep s := by
  simp [ShipModule.update, h]

lemma update_of_onScreen (env : Env) (s : ShipModule) (m : Coord) (sc : ℚ × ℚ)
    (hid : env.getActorId s.address = s.actor_id)
    (hsc : newScreen env s m = some sc) :
    s.update env m =
      onScreenStep env
        { s with my_coords := m
                 coords := env.coordBuilder s.actor_root_comp_ptr s.coord_offset
                 screen_coords := some sc }
        (newDist env s m) sc := by
  simp only [newScreen] at hsc
  simp only [ShipModule.update, newDist, hid, ne_eq, not_true_eq_false,
    if_false, hsc]

lemma update_of_offScreen (env : Env) (s : ShipModule) (m : Coord)
    (hid : env.getActorId s.address = s.actor_id)
    (hsc : newScreen env s m = none) :
    s.update env m =
      offScreenStep
        { s with my_coords := m
                 coords := env.coordBuilder s.actor_root_comp_ptr s.coord_offset
                 screen_coords := none } := by
  simp only [newScreen] at hsc
  simp only [ShipModule.update, hid, ne_eq, not_true_eq_false, if_false, hsc]

lemma onScreenStep_circle_visible (env : Env) (s : ShipModule) (d : ℚ)
    (sc : ℚ × ℚ) :
    (onScreenStep env s d sc).circle.visible = visFlag s.name d := by
  unfold onScreenStep
  cases h : env.crewColor s.crew_guid <;> simp [h]

lemma onScreenStep_circle_x (env : Env) (s : ShipModule) (d : ℚ) (sc : ℚ × ℚ) :
    (onScreenStep env s d sc).circle.x = sc.1 - CIRCLE_SIZE / 2 := by
  unfold onScreenStep
  cases h : env.crewColor s.crew_guid <;> simp [h]

lemma onScreenStep_circle_y (env : Env) (s : ShipModule) (d : ℚ) (sc : ℚ × ℚ) :
    (onScreenStep env s d sc).circle.y = sc.2 - CIRCLE_SIZE / 2 := by
  unfold onScreenStep
  cases h : env.crewColor s.crew_guid <;> simp [h]

lemma onScreenStep_circle_deleteCount (env : Env) (s : ShipModule) (d : ℚ)
    (sc : ℚ × ℚ) :
    (onScreenStep env s d sc).circle.deleteCount = s.circle.deleteCount := by
  unfold onScreenStep
  cases h : env.crewColor s.crew_guid <;> simp [h]

lemma onScreenStep_circle_color (env : Env) (s : ShipModule) (d : ℚ)
    (sc : ℚ × ℚ) :
    (onScreenStep env s d sc).circle.color =
      match env.crewColor s.crew_guid with
      | some c => c
      | none => s.circle.color := by
  unfold onScreenStep
  cases h : env.crewColor s.crew_guid <;> simp [h]

lemma onScreenStep_icon (env : Env) (s : ShipModule) (d : ℚ) (sc : ℚ × ℚ) :
    (onScreenStep env s d sc).icon =
      { s.icon with visible := visFlag s.name d
                    x := sc.1 - CIRCLE_SIZE * 1.45
                    y := sc.2 - CIRCLE_SIZE * 1.45 } := rfl

lemma onScreenStep_text_render (env : Env) (s : ShipModule) (d : ℚ)
    (sc : ℚ × ℚ) :
    (onScreenStep env s d sc).text_render =
      { s.text_render with visible := visFlag s.name d
                           x := sc.1 + CIRCLE_SIZE / 2 + 10
                           y := sc.2 + CIRCLE_SIZE / 2 - 30
                           text := built_text_string s.name d } := rfl

lemma onScreenStep_distance (env : Env) (s : ShipModule) (d : ℚ)
    (sc : ℚ × ℚ) : (onScreenStep env s d sc).distance = d := rfl

lemma onScreenStep_text_str (env : Env) (s : ShipModule) (d : ℚ)
    (sc : ℚ × ℚ) :
    (onScreenStep env s d sc).text_str = built_text_string s.name d := rfl

lemma onScreenStep_name (env : Env) (s : ShipModule) (d : ℚ) (sc : ℚ × ℚ) :
    (onScreenStep env s d sc).name = s.name := rfl

lemma onScreenStep_screen_coords (env : Env) (s : ShipModule) (d : ℚ)
    (sc : ℚ × ℚ) :
    (onScreenStep env s d sc).screen_coords = s.screen_coords := rfl

lemma visFlag_of_near (name : String) (d : ℚ) (h : strIn "Near" name = true) :
    visFlag name d = decide (d ≤ 1750) := by
  unfold visFlag
  by_cases hd : d ≤ 1750
  · simp [h, hd, not_lt.2 hd]
  · simp [h, hd, lt_of_not_le hd]

lemma visFlag_of_far (name : String) (d : ℚ) (h : strIn "Near" name = false) :
    visFlag name d = decide (1750 ≤ d) := by
  unfold visFlag
  by_cases hd : (1750 : ℚ) ≤ d
  · simp [h, hd, not_lt.2 hd]
  · simp [h, hd, lt_of_not_le hd]

lemma visibleTriple_onScreenStep (env : Env) (s : ShipModule) (d : ℚ)
    (sc : ℚ × ℚ) :
    visibleTriple (onScreenStep env s d sc) = visFlag s.name d := by
  simp only [visibleTriple, onScreenStep_circle_visible, onScreenStep_icon,
    onScreenStep_text_render]
  cases visFlag s.name d <;> rfl

lemma invisibleTriple_onScreenStep (env : Env) (s : ShipModule) (d : ℚ)
    (sc : ℚ × ℚ) :
    invisibleTriple (onScreenStep env s d sc) = !visFlag s.name d := by
  simp only [invisibleTriple, onScreenStep_circle_visible, onScreenStep_icon,
    onScreenStep_text_render]
  cases visFlag s.name d <;> rfl

lemma offScreenStep_invisible (s : ShipModule) :
    invisibleTriple (offScreenStep s) = true := rfl

lemma offScreenStep_positions (s : ShipModule) :
    (offScreenStep s).circle.x = s.circle.x ∧
    (offScreenStep s).circle.y = s.circle.y ∧
    (offScreenStep s).icon.x = s.icon.x ∧
    (offScreenStep s).icon.y = s.icon.y ∧
    (offScreenStep s).text_render.x = s.text_render.x ∧
    (offScreenStep s).text_render.y = s.text_render.y :=
  ⟨rfl, rfl, rfl, rfl, rfl, rfl⟩

lemma offScreenStep_deleteCounts (s : ShipModule) :
    (offScreenStep s).circle.deleteCount = s.circle.deleteCount ∧
    (offScreenStep s).icon.deleteCount = s.icon.deleteCount ∧
    (offScreenStep s).text_render.deleteCount = s.text_render.deleteCount :=
  ⟨rfl, rfl, rfl⟩

/-! ## Field-preservation lemmas for `update` -/

lemma update_address (env : Env) (s : ShipModule) (m : Coord) :
    (s.update env m).address = s.address := by
  simp only [ShipModule.update]
  split
  · rfl
  · split <;> rfl

lemma update_actor_id (env : Env) (s : ShipModule) (m : Coord) :
    (s.update env m).actor_id = s.actor_id := by
  simp only [ShipModule.update]
  split
  · rfl
  · split <;> rfl

lemma update_actor_root_comp_ptr (env : Env) (s : ShipModule) (m : Coord) :
    (s.update env m).actor_root_comp_ptr = s.actor_root_comp_ptr := by
  simp only [ShipModule.update]
  split
  · rfl
  · split <;> rfl

lemma update_coord_offset (env : Env) (s : ShipModule) (m : Coord) :
    (s.update env m).coord_offset = s.coord_offset := by
  simp only [ShipModule.update]
  split
  · rfl
  · split <;> rfl

lemma update_name (env : Env) (s : ShipModule) (m : Coord) :
    (s.update env m).name = s.name := by
  simp only [ShipModule.update]
  split
  · rfl
  · split <;> rfl

lemma update_crew_guid (env : Env) (s : ShipModule) (m : Coord) :
    (s.update env m).crew_guid = s.crew_guid := by
  simp only [ShipModule.update]
  split
  · rfl
  · split <;> rfl

/-! ## Concrete fixtures for witnesses and counterexamples -/

/-- A concrete viewer coordinate. -/
def coord0 : Coord := ⟨0, 0, 0⟩

/-- A concrete well-behaved memory snapshot: identity token 1 everywhere,
an on-screen projection at (500, 400), distance 1200, no known crew. -/
def envBase : Env where
  getActorId := fun _ => 1
  getRootCompAddress := fun a => a + 16
  coordOffset := 160
  shipName := fun _ => "Sloop (Near)"
  coordBuilder := fun _ _ => ⟨10, 20, 30⟩
  calculateDistance := fun _ _ => 1200
  objectToScreen := fun _ _ => some (500, 400)
  getCrewGuid := fun _ => 7
  crewColor := fun _ => none

/-- `envBase` but the name mapping yields the far variant's name. -/
def envFarName : Env := { envBase with shipName := fun _ => "Sloop" }

/-- `envBase` but the identity token read back is 99 (address reuse). -/
def envMismatch : Env := { envBase with getActorId := fun _ => 99 }

/-- `envBase` but the projection misses the frustum. -/
def envOff : Env := { envBase with objectToScreen := fun _ _ => none }

/-- `envBase` with the distance oracle pinned to `d`. -/
def envAt (d : ℚ) : Env := { envBase with calculateDistance := fun _ _ => d }

/-- A freshly constructed near-variant record. -/
def sNear : ShipModule :=
  ShipModule.init envBase 1 100 "BP_SmallShipTemplate_C" coord0

/-- A freshly constructed far-variant record. -/
def sFar : ShipModule :=
  ShipModule.init envFarName 1 100 "BP_SmallShipNetProxy_C" coord0

/-! ## Claim C2: identity mismatch is terminal and does nothing else -/

/-- Everything the terminal transition of an `update` call is supposed to
do and to leave alone. -/
def TerminalOutcome (env : Env) (s : ShipModule) (m : Coord) : Prop :=
  (s.update env m).to_delete = true ∧
  (s.update env m).circle.deleteCount = s.circle.deleteCount + 1 ∧
  (s.update env m).icon.deleteCount = s.icon.deleteCount + 1 ∧
  (s.update env m).text_render.deleteCount = s.text_render.deleteCount + 1 ∧
  (s.update env m).coords = s.coords ∧
  (s.update env m).distance = s.distance ∧
  (s.update env m).screen_coords = s.screen_coords ∧
  (s.update env m).my_coords = s.my_coords ∧
  (s.update env m).text_str = s.text_str ∧
  (s.update env m).name = s.name ∧
  (s.update env m).actor_id = s.actor_id ∧
  (s.update env m).address = s.address ∧
  (s.update env m).actor_root_comp_ptr = s.actor_root_comp_ptr ∧
  (s.update env m).crew_guid = s.crew_guid ∧
  (s.update env m).circle.x = s.circle.x ∧
  (s.update env m).circle.y = s.circle.y ∧
  (s.update env m).circle.visible = s.circle.visible ∧
  (s.update env m).circle.color = s.circle.color ∧
  (s.update env m).icon.x = s.icon.x ∧
  (s.update env m).icon.y = s.icon.y ∧
  (s.update env m).icon.visible = s.icon.visible ∧
  (s.update env m).text_render.x = s.text_render.x ∧
  (s.update env m).text_render.y = s.text_render.y ∧
  (s.update env m).text_render.visible = s.text_render.visible ∧
  (s.update env m).text_render.text = s.text_render.text

/-- C2: when the identity token re-read at the stored address differs from
the stored identity, `update` sets `to_delete`, deletes all three visuals,
and changes nothing else: coords, distance, screen_coords and every other
field keep their prior values. -/
theorem C2_identity_mismatch_terminal (env : Env) (s : ShipModule) (m : Coord)
    (h : env.getActorId s.address ≠ s.actor_id) :
    TerminalOutcome env s m := by
  unfold TerminalOutcome
  rw [update_of_mismatch env s m h]
  exact ⟨rfl, rfl, rfl, rfl, rfl, rfl, rfl, rfl, rfl, rfl, rfl, rfl, rfl,
    rfl, rfl, rfl, rfl, rfl, rfl, rfl, rfl, rfl, rfl, rfl, rfl⟩

/-- C2 witness: the terminal outcome at a concrete mismatching snapshot. -/
theorem C2_identity_mismatch_terminal_witness :
    TerminalOutcome envMismatch sNear coord0 :=
  C2_identity_mismatch_terminal envMismatch sNear coord0 (by decide)

/-! ## Claim C3: the visual triple is never partially visible -/

/-- At the end of a non-terminal `update`: either all three visuals are
invisible, or all three are visible and positioned at the fixed offsets
from the freshly projected screen coordinates. -/
def TripleOutcome (env : Env) (s : ShipModule) (m : Coord) : Prop :=
  invisibleTriple (s.update env m) = true ∨
  (visibleTriple (s.update env m) = true ∧
   ∃ sc : ℚ × ℚ, newScreen env s m = some sc ∧
     (s.update env m).screen_coords = some sc ∧
     (s.update env m).circle.x = sc.1 - CIRCLE_SIZE / 2 ∧
     (s.update env m).circle.y = sc.2 - CIRCLE_SIZE / 2 ∧
     (s.update env m).icon.x = sc.1 - CIRCLE_SIZE * 1.45 ∧
     (s.update env m).icon.y = sc.2 - CIRCLE_SIZE * 1.45 ∧
     (s.update env m).text_render.x = sc.1 + CIRCLE_SIZE / 2 + 10 ∧
     (s.update env m).text_render.y = sc.2 + CIRCLE_SIZE / 2 - 30)

/-- C3: every non-terminal `update` call ends with the three visuals'
visibility flags equal — all invisible, or all visible and co-positioned
at fixed offsets from the same freshly computed screen coordinates. -/
theorem C3_never_partially_visible (env : Env) (s : ShipModule) (m : Coord)
    (hid : env.getActorId s.address = s.actor_id) :
    TripleOutcome env s m := by
  unfold TripleOutcome
  cases hsc : newScreen env s m with
  | none =>
    left
    rw [update_of_offScreen env s m hid hsc]
    exact offScreenStep_invisible _
  | some sc =>
    rw [update_of_onScreen env s m sc hid hsc]
    cases hv : visFlag s.name (newDist env s m) with
    | false =>
      left
      rw [invisibleTriple_onScreenStep]
      simpa using hv
    | true =>
      right
      refine ⟨?_, sc, rfl, ?_, ?_, ?_, ?_, ?_, ?_, ?_⟩
      · rw [visibleTriple_onScreenStep]
        simpa using hv
      · rw [onScreenStep_screen_coords]
      · rw [onScreenStep_circle_x]
      · rw [onScreenStep_circle_y]
      · rw [onScreenStep_icon]
      · rw [onScreenStep_icon]
      · rw [onScreenStep_text_render]
      · rw [onScreenStep_text_render]

/-- C3 witness: the triple invariant at a concrete healthy snapshot. -/
theorem C3_never_partially_visible_witness : TripleOutcome envBase sNear coord0 :=
  C3_never_partially_visible envBase sNear coord0 (by decide)

/-! ## Claim C5: end-to-end scenario for the near sloop at 1200m -/

/-- C5: for `displayName = "Sloop (Near)"`, a non-terminal update computing
distance 1200 and screen coordinates (500, 400) ends with the marker circle
visible at (487.5, 387.5) and label text `"Sloop (Near) - 1200m"`. -/
theorem C5_sloop_near_scenario :
    sNear.name = "Sloop (Near)" ∧
    (sNear.update envBase coord0).to_delete = false ∧
    (sNear.update envBase coord0).distance = 1200 ∧
    (sNear.update envBase coord0).screen_coords = some (500, 400) ∧
    (sNear.update envBase coord0).circle.visible = true ∧
    (sNear.update envBase coord0).circle.x = 487.5 ∧
    (sNear.update envBase coord0).circle.y = 387.5 ∧
    (sNear.update envBase coord0).text_str = "Sloop (Near) - 1200m" ∧
    (sNear.update envBase coord0).text_render.text = "Sloop (Near) - 1200m" := by
  have hid : envBase.getActorId sNear.address = sNear.actor_id := by decide
  have hsc : newScreen envBase sNear coord0 = some (500, 400) := rfl
  rw [update_of_onScreen envBase sNear coord0 (500, 400) hid hsc]
  refine ⟨by decide, rfl, rfl, rfl, ?_, ?_, ?_, by decide, by decide⟩
  · rw [onScreenStep_circle_visible]
    decide
  · rw [onScreenStep_circle_x]
    norm_num [CIRCLE_SIZE]
  · rw [onScreenStep_circle_y]
    norm_num [CIRCLE_SIZE]

/-! ## Claim C6: empty projection forces invisibility, positions untouched -/

/-- The off-screen outcome: all three visuals invisible and all six visual
position fields left at their prior values. -/
def OffScreenOutcome (env : Env) (s : ShipModule) (m : Coord) : Prop :=
  invisibleTriple (s.update env m) = true ∧
  (s.update env m).screen_coords = none ∧
  (s.update env m).circle.x = s.circle.x ∧
  (s.update env m).circle.y = s.circle.y ∧
  (s.update env m).icon.x = s.icon.x ∧
  (s.update env m).icon.y = s.icon.y ∧
  (s.update env m).text_render.x = s.text_render.x ∧
  (s.update env m).text_render.y = s.text_render.y

/-- C6: when projection returns no screen coordinate, a non-terminal
`update` sets all three visuals invisible — regardless of distance — and
mutates none of their position fields. -/
theorem C6_offscreen_invisible_no_position_write (env : Env) (s : ShipModule)
    (m : Coord) (hid : env.getActorId s.address = s.actor_id)
    (hsc : newScreen env s m = none) :
    OffScreenOutcome env s m := by
  unfold OffScreenOutcome
  rw [update_of_offScreen env s m hid hsc]
  exact ⟨rfl, rfl, rfl, rfl, rfl, rfl, rfl, rfl⟩

/-- C6 witness: the off-screen outcome at a concrete missed projection. -/
theorem C6_offscreen_invisible_no_position_write_witness :
    OffScreenOutcome envOff sNear coord0 :=
  C6_offscreen_invisible_no_position_write envOff sNear coord0 (by decide)
    (by decide)

/-! ## Claim C1: near/far pair exclusivity and the exact-1750 tie -/

/-- C1 counterexample: at exact distance 1750 — with both identity checks
passing, both projections on screen, the near record's name containing
"Near" and the far record's not — BOTH variants end their update with all
three visuals visible, so "at most one of the pair is visible" and "at
equality only the far variant is visible" are both false. -/
theorem C1_counterexample :
    strIn "Near" sNear.name = true ∧
    strIn "Near" sFar.name = false ∧
    (envAt 1750).getActorId sNear.address = sNear.actor_id ∧
    (envAt 1750).getActorId sFar.address = sFar.actor_id ∧
    newDist (envAt 1750) sNear coord0 = 1750 ∧
    newDist (envAt 1750) sFar coord0 = 1750 ∧
    (newScreen (envAt 1750) sNear coord0).isSome = true ∧
    (newScreen (envAt 1750) sFar coord0).isSome = true ∧
    visibleTriple (sNear.update (envAt 1750) coord0) = true ∧
    visibleTriple (sFar.update (envAt 1750) coord0) = true := by
  decide

/-- Behaviour of a matched near/far pair at a common distance `d`: off the
threshold at most one variant is visible; at exactly 1750 both are. -/
def PairSwitchOutcome (env : Env) (m : Coord) (sN sF : ShipModule)
    (d : ℚ) : Prop :=
  (d ≠ 1750 →
    ¬(visibleTriple (sN.update env m) = true ∧
      visibleTriple (sF.update env m) = true)) ∧
  (d = 1750 →
    visibleTriple (sN.update env m) = true ∧
    visibleTriple (sF.update env m) = true)

/-- C1 (amended): for a matched near/far pair updating on screen at the
same distance `d`, at most one of the two is visible whenever `d ≠ 1750`;
at exact equality `d = 1750` the rule makes BOTH variants visible (the
near variant is visible for `d ≤ 1750`, the far one for `d ≥ 1750`). -/
theorem C1_pair_switch_amended (env : Env) (m : Coord) (sN sF : ShipModule)
    (d : ℚ)
    (hN : strIn "Near" sN.name = true) (hF : strIn "Near" sF.name = false)
    (idN : env.getActorId sN.address = sN.actor_id)
    (idF : env.getActorId sF.address = sF.actor_id)
    (scN : (newScreen env sN m).isSome = true)
    (scF : (newScreen env sF m).isSome = true)
    (hdN : newDist env sN m = d) (hdF : newDist env sF m = d) :
    PairSwitchOutcome env m sN sF d := by
  obtain ⟨pN, hpN⟩ := Option.isSome_iff_exists.mp scN
  obtain ⟨pF, hpF⟩ := Option.isSome_iff_exists.mp scF
  have eN : visibleTriple (sN.update env m) = decide (d ≤ 1750) := by
    rw [update_of_onScreen env sN m pN idN hpN, visibleTriple_onScreenStep]
    show visFlag sN.name (newDist env sN m) = decide (d ≤ 1750)
    rw [visFlag_of_near sN.name _ hN, hdN]
  have eF : visibleTriple (sF.update env m) = decide (1750 ≤ d) := by
    rw [update_of_onScreen env sF m pF idF hpF, visibleTriple_onScreenStep]
    show visFlag sF.name (newDist env sF m) = decide (1750 ≤ d)
    rw [visFlag_of_far sF.name _ hF, hdF]
  constructor
  · intro hne hboth
    have h1 : d ≤ 1750 := by
      have := hboth.1
      rw [eN] at this
      exact of_decide_eq_true this
    have h2 : (1750 : ℚ) ≤ d := by
      have := hboth.2
      rw [eF] at this
      exact of_decide_eq_true this
    exact hne (le_antisymm h1 h2)
  · intro heq
    subst heq
    rw [eN, eF]
    exact ⟨by norm_num, by norm_num⟩

/-- C1 witness: the amended pair behaviour at a concrete distance 1700. -/
theorem C1_pair_switch_amended_witness :
    PairSwitchOutcome (envAt 1700) coord0 sNear sFar 1700 :=
  C1_pair_switch_amended (envAt 1700) coord0 sNear sFar 1700 (by decide)
    (by decide) (by decide) (by decide) (by decide) (by decide) rfl rfl

/-! ## Claim C4: either side of the 1750 threshold -/

/-- Outcome of a near/far pair just below the threshold (snapshot `envA`)
and just above it (snapshot `envB`). -/
def ThresholdOutcome (envA envB : Env) (m : Coord)
    (sN sF : ShipModule) : Prop :=
  visibleTriple (sN.update envA m) = true ∧
  invisibleTriple (sF.update envA m) = true ∧
  visibleTriple (sF.update envB m) = true ∧
  invisibleTriple (sN.update envB m) = true

/-- C4: with screen coordinates present, at distance 1749.999 the "Near"
record ends visible and the far record invisible; at 1750.001 the far
record ends visible and the "Near" record invisible. -/
theorem C4_threshold_sides (envA envB : Env) (m : Coord)
    (sN sF : ShipModule)
    (hN : strIn "Near" sN.name = true) (hF : strIn "Near" sF.name = false)
    (idNA : envA.getActorId sN.address = sN.actor_id)
    (idFA : envA.getActorId sF.address = sF.actor_id)
    (idNB : envB.getActorId sN.address = sN.actor_id)
    (idFB : envB.getActorId sF.address = sF.actor_id)
    (scNA : (newScreen envA sN m).isSome = true)
    (scFA : (newScreen envA sF m).isSome = true)
    (scNB : (newScreen envB sN m).isSome = true)
    (scFB : (newScreen envB sF m).isSome = true)
    (hdNA : newDist envA sN m = 1749.999)
    (hdFA : newDist envA sF m = 1749.999)
    (hdNB : newDist envB sN m = 1750.001)
    (hdFB : newDist envB sF m = 1750.001) :
    ThresholdOutcome envA envB m sN sF := by
  obtain ⟨pNA, hpNA⟩ := Option.isSome_iff_exists.mp scNA
  obtain ⟨pFA, hpFA⟩ := Option.isSome_iff_exists.mp scFA
  obtain ⟨pNB, hpNB⟩ := Option.isSome_iff_exists.mp scNB
  obtain ⟨pFB, hpFB⟩ := Option.isSome_iff_exists.mp scFB
  refine ⟨?_, ?_, ?_, ?_⟩
  · rw [update_of_onScreen envA sN m pNA idNA hpNA, visibleTriple_onScreenStep]
    show visFlag sN.name (newDist envA sN m) = true
    rw [visFlag_of_near sN.name _ hN, hdNA]
    norm_num
  · rw [update_of_onScreen envA sF m pFA idFA hpFA,
      invisibleTriple_onScreenStep]
    show (!visFlag sF.name (newDist envA sF m)) = true
    rw [visFlag_of_far sF.name _ hF, hdFA]
    norm_num
  · rw [update_of_onScreen envB sF m pFB idFB hpFB, visibleTriple_onScreenStep]
    show visFlag sF.name (newDist envB sF m) = true
    rw [visFlag_of_far sF.name _ hF, hdFB]
    norm_num
  · rw [update_of_onScreen envB sN m pNB idNB hpNB,
      invisibleTriple_onScreenStep]
    show (!visFlag sN.name (newDist envB sN m)) = true
    rw [visFlag_of_near sN.name _ hN, hdNB]
    norm_num

/-- C4 witness: the threshold-side outcomes at concrete snapshots pinned
to 1749.999 and 1750.001. -/
theorem C4_threshold_sides_witness :
    ThresholdOutcome (envAt 1749.999) (envAt 1750.001) coord0 sNear sFar :=
  C4_threshold_sides (envAt 1749.999) (envAt 1750.001) coord0 sNear sFar
    (by decide) (by decide) (by decide) (by decide) (by decide) (by decide)
    (by decide) (by decide) (by decide) (by decide) rfl rfl rfl rfl

/-! ## Claim C7: where the recomputed distance is stored -/

/-- `envBase` with the projection missing and the distance oracle at 4242. -/
def envStale : Env :=
  { envBase with objectToScreen := fun _ _ => none
                 calculateDistance := fun _ _ => 4242 }

/-- C7 counterexample: a non-terminal off-screen update recomputes the
distance (4242 here) but does NOT store it — the record keeps its prior
stored distance 1200, refuting "stores the recomputed Euclidean distance
... regardless of whether the entity is on-screen or off-screen". -/
theorem C7_counterexample :
    envStale.getActorId sNear.address = sNear.actor_id ∧
    (sNear.update envStale coord0).to_delete = false ∧
    newDist envStale sNear coord0 = 4242 ∧
    (sNear.update envStale coord0).distance = 1200 ∧
    ¬((sNear.update envStale coord0).distance
        = newDist envStale sNear coord0) := by
  decide

/-- What a non-terminal update actually does with the recomputed values:
world and viewer coordinates are always stored; the recomputed distance is
stored only when the projection is on screen, and the stored distance keeps
its prior value otherwise. -/
def DistanceStorageOutcome (env : Env) (s : ShipModule) (m : Coord) : Prop :=
  (s.update env m).coords
      = env.coordBuilder s.actor_root_comp_ptr s.coord_offset ∧
  (s.update env m).my_coords = m ∧
  ((newScreen env s m).isSome = true →
    (s.update env m).distance = newDist env s m) ∧
  (newScreen env s m = none → (s.update env m).distance = s.distance)

/-- C7 (amended): every non-terminal update recomputes and stores the
world coordinates, and recomputes the distance; but the record's distance
field receives the recomputed value only when screen coordinates are
present — off-screen it retains its prior value. -/
theorem C7_distance_storage_amended (env : Env) (s : ShipModule) (m : Coord)
    (hid : env.getActorId s.address = s.actor_id) :
    DistanceStorageOutcome env s m := by
  unfold DistanceStorageOutcome
  cases hsc : newScreen env s m with
  | none =>
    rw [update_of_offScreen env s m hid hsc]
    exact ⟨rfl, rfl, by intro h; simp at h, fun _ => rfl⟩
  | some sc =>
    rw [update_of_onScreen env s m sc hid hsc]
    exact ⟨rfl, rfl, fun _ => onScreenStep_distance env _ _ sc,
      by intro h; exact Option.noConfusion h⟩

/-- C7 witness: the amended storage behaviour at a concrete healthy
snapshot. -/
theorem C7_distance_storage_amended_witness :
    DistanceStorageOutcome envBase sNear coord0 :=
  C7_distance_storage_amended envBase sNear coord0 (by decide)

/-! ## Claim C10: a forced-invisible on-screen update still writes -/

/-- `envBase` with a known crew color for every guid. -/
def envCrew : Env := { envBase with crewColor := fun _ => some (200, 10, 10) }

/-- Outcome of an on-screen update at screen point `sc` whose distance rule
forces invisibility: all three visuals invisible, yet all six positions
freshly written from `sc`, distance and label text updated, and the marker
recolored whenever the crew is known. -/
def OnScreenWritesOutcome (env : Env) (s : ShipModule) (m : Coord)
    (sc : ℚ × ℚ) : Prop :=
  invisibleTriple (s.update env m) = true ∧
  (s.update env m).circle.x = sc.1 - CIRCLE_SIZE / 2 ∧
  (s.update env m).circle.y = sc.2 - CIRCLE_SIZE / 2 ∧
  (s.update env m).icon.x = sc.1 - CIRCLE_SIZE * 1.45 ∧
  (s.update env m).icon.y = sc.2 - CIRCLE_SIZE * 1.45 ∧
  (s.update env m).text_render.x = sc.1 + CIRCLE_SIZE / 2 + 10 ∧
  (s.update env m).text_render.y = sc.2 + CIRCLE_SIZE / 2 - 30 ∧
  (s.update env m).distance = newDist env s m ∧
  (s.update env m).text_str = built_text_string s.name (newDist env s m) ∧
  (s.update env m).text_render.text
      = built_text_string s.name (newDist env s m) ∧
  (∀ c, env.crewColor s.crew_guid = some c →
    (s.update env m).circle.color = c)

/-- C10: when projection yields screen coordinates but the near/far rule
forces the visuals invisible, the update still writes new positions to all
three visuals, stores the new distance, rebuilds the label text, and
recolors the marker when the crew is known — the no-write policy belongs
only to the empty-projection branch. -/
theorem C10_forced_invisible_still_writes (env : Env) (s : ShipModule)
    (m : Coord) (sc : ℚ × ℚ)
    (hid : env.getActorId s.address = s.actor_id)
    (hsc : newScreen env s m = some sc)
    (hforce : (strIn "Near" s.name = true ∧ 1750 < newDist env s m) ∨
              (strIn "Near" s.name = false ∧ newDist env s m < 1750)) :
    OnScreenWritesOutcome env s m sc := by
  unfold OnScreenWritesOutcome
  rw [update_of_onScreen env s m sc hid hsc]
  refine ⟨?_, ?_, ?_, ?_, ?_, ?_, ?_, ?_, rfl, rfl, ?_⟩
  · rw [invisibleTriple_onScreenStep]
    show (!visFlag s.name (newDist env s m)) = true
    rcases hforce with ⟨hne, hgt⟩ | ⟨hne, hlt⟩
    · rw [visFlag_of_near s.name _ hne, decide_eq_false (not_le.mpr hgt)]
      rfl
    · rw [visFlag_of_far s.name _ hne, decide_eq_false (not_le.mpr hlt)]
      rfl
  · rw [onScreenStep_circle_x]
  · rw [onScreenStep_circle_y]
  · rw [onScreenStep_icon]
  · rw [onScreenStep_icon]
  · rw [onScreenStep_text_render]
  · rw [onScreenStep_text_render]
  · exact onScreenStep_distance env _ _ sc
  · intro c hc
    rw [onScreenStep_circle_color]
    simp [hc]

/-- C10 witness: a far-variant record at distance 1200 with a known crew
is forced invisible yet fully repositioned, retimed and recolored. -/
theorem C10_forced_invisible_still_writes_witness :
    OnScreenWritesOutcome envCrew sFar coord0 (500, 400) :=
  C10_forced_invisible_still_writes envCrew sFar coord0 (500, 400)
    (by decide) (by decide) (by decide)

/-! ## Claim C9: a second update with the same snapshot changes nothing -/

/-- The fields the idempotence claim compares: screen coordinates, stored
distance, and the positions of all three visuals. -/
def SameRenderFields (a b : ShipModule) : Prop :=
  a.screen_coords = b.screen_coords ∧
  a.distance = b.distance ∧
  a.circle.x = b.circle.x ∧ a.circle.y = b.circle.y ∧
  a.icon.x = b.icon.x ∧ a.icon.y = b.icon.y ∧
  a.text_render.x = b.text_render.x ∧ a.text_render.y = b.text_render.y

/-- C9: with the memory snapshot and viewer coordinates unchanged, a second
`update` call produces the same screen coordinates, the same stored
distance and the same positions of all three visuals as the first. -/
theorem C9_double_update_stable (env : Env) (s : ShipModule) (m : Coord)
    (hid : env.getActorId s.address = s.actor_id) :
    SameRenderFields (ShipModule.update env (ShipModule.update env s m) m)
      (ShipModule.update env s m) := by
  have hid1 : env.getActorId (ShipModule.update env s m).address
      = (ShipModule.update env s m).actor_id := by
    rw [update_address, update_actor_id]
    exact hid
  have hscreen : newScreen env (ShipModule.update env s m) m
      = newScreen env s m := by
    unfold newScreen
    rw [update_actor_root_comp_ptr, update_coord_offset]
  have hdist : newDist env (ShipModule.update env s m) m = newDist env s m := by
    unfold newDist
    rw [update_actor_root_comp_ptr, update_coord_offset]
  cases hsc : newScreen env s m with
  | none =>
    have hsc1 : newScreen env (ShipModule.update env s m) m = none := by
      rw [hscreen, hsc]
    rw [update_of_offScreen env (ShipModule.update env s m) m hid1 hsc1,
      update_of_offScreen env s m hid hsc]
    exact ⟨rfl, rfl, rfl, rfl, rfl, rfl, rfl, rfl⟩
  | some sc =>
    have hsc1 : newScreen env (ShipModule.update env s m) m = some sc := by
      rw [hscreen, hsc]
    rw [update_of_onScreen env (ShipModule.update env s m) m sc hid1 hsc1,
      hdist, update_of_onScreen env s m sc hid hsc]
    refine ⟨rfl, rfl, ?_, ?_, rfl, rfl, rfl, rfl⟩
    · rw [onScreenStep_circle_x, onScreenStep_circle_x]
    · rw [onScreenStep_circle_y, onScreenStep_circle_y]

/-- C9 witness: stability of the second update at a concrete snapshot. -/
theorem C9_double_update_stable_witness :
    SameRenderFields
      (ShipModule.update envBase (ShipModule.update envBase sNear coord0)
        coord0)
      (ShipModule.update envBase sNear coord0) :=
  C9_double_update_stable envBase sNear coord0 (by decide)

/-! ## Claim C8: visuals deleted at most once — trace semantics -/

/-- One registry-driven call on a record: an `update` against the memory
snapshot current at that frame, or the registry calling `_delete`. -/
inductive TraceOp where
  | update (env : Env) (m : Coord)
  | dispose

/-- Apply one call to the record. -/
def applyOp (s : ShipModule) : TraceOp → ShipModule
  | TraceOp.update env m => s.update env m
  | TraceOp.dispose => s._delete

/-- Run a sequence of calls, oldest first. -/
def runTrace (s : ShipModule) : List TraceOp → ShipModule
  | [] => s
  | op :: ops => runTrace (applyOp s op) ops

lemma update_alive_deleteCounts (env : Env) (s : ShipModule) (m : Coord)
    (hid : env.getActorId s.address = s.actor_id) :
    (s.update env m).circle.deleteCount = s.circle.deleteCount ∧
    (s.update env m).icon.deleteCount = s.icon.deleteCount ∧
    (s.update env m).text_render.deleteCount
        = s.text_render.deleteCount := by
  cases hsc : newScreen env s m with
  | none =>
    rw [update_of_offScreen env s m hid hsc]
    exact ⟨rfl, rfl, rfl⟩
  | some sc =>
    rw [update_of_onScreen env s m sc hid hsc]
    exact ⟨onScreenStep_circle_deleteCount env _ _ sc, rfl, rfl⟩

lemma applyOp_address (s : ShipModule) (op : TraceOp) :
    (applyOp s op).address = s.address := by
  cases op with
  | update env m => exact update_address env s m
  | dispose => rfl

lemma applyOp_actor_id (s : ShipModule) (op : TraceOp) :
    (applyOp s op).actor_id = s.actor_id := by
  cases op with
  | update env m => exact update_actor_id env s m
  | dispose => rfl

lemma applyOp_deleteCount_le (s : ShipModule) (op : TraceOp) :
    (applyOp s op).circle.deleteCount ≤ s.circle.deleteCount + 1 ∧
    (applyOp s op).icon.deleteCount ≤ s.icon.deleteCount + 1 ∧
    (applyOp s op).text_render.deleteCount
        ≤ s.text_render.deleteCount + 1 := by
  cases op with
  | dispose => exact ⟨Nat.le_refl _, Nat.le_refl _, Nat.le_refl _⟩
  | update env m =>
    by_cases hid : env.getActorId s.address = s.actor_id
    · obtain ⟨h1, h2, h3⟩ := update_alive_deleteCounts env s m hid
      refine ⟨?_, ?_, ?_⟩
      · show (s.update env m).circle.deleteCount ≤ _
        rw [h1]
        exact Nat.le_succ _
      · show (s.update env m).icon.deleteCount ≤ _
        rw [h2]
        exact Nat.le_succ _
      · show (s.update env m).text_render.deleteCount ≤ _
        rw [h3]
        exact Nat.le_succ _
    · have ht : applyOp s (TraceOp.update env m) = terminalStep s := by
        show s.update env m = terminalStep s
        exact update_of_mismatch env s m hid
      rw [ht]
      exact ⟨Nat.le_refl _, Nat.le_refl _, Nat.le_refl _⟩

lemma runTrace_deleteCounts_le (addr aid : Nat) (ops : List TraceOp) :
    ∀ s : ShipModule, s.address = addr → s.actor_id = aid →
      s.circle.deleteCount = 0 → s.icon.deleteCount = 0 →
      s.text_render.deleteCount = 0 →
      (∀ op ∈ ops.dropLast, ∃ env m, op = TraceOp.update env m ∧
        env.getActorId addr = aid) →
      (runTrace s ops).circle.deleteCount ≤ 1 ∧
      (runTrace s ops).icon.deleteCount ≤ 1 ∧
      (runTrace s ops).text_render.deleteCount ≤ 1 := by
  induction ops with
  | nil =>
    intro s _ _ h1 h2 h3 _
    refine ⟨?_, ?_, ?_⟩
    · show s.circle.deleteCount ≤ 1
      rw [h1]
      exact Nat.zero_le _
    · show s.icon.deleteCount ≤ 1
      rw [h2]
      exact Nat.zero_le _
    · show s.text_render.deleteCount ≤ 1
      rw [h3]
      exact Nat.zero_le _
  | cons op ops ih =>
    intro s hsa hsi h1 h2 h3 hpre
    cases ops with
    | nil =>
      obtain ⟨hb1, hb2, hb3⟩ := applyOp_deleteCount_le s op
      refine ⟨?_, ?_, ?_⟩
      · show (applyOp s op).circle.deleteCount ≤ 1
        rw [h1] at hb1
        exact hb1
      · show (applyOp s op).icon.deleteCount ≤ 1
        rw [h2] at hb2
        exact hb2
      · show (applyOp s op).text_render.deleteCount ≤ 1
        rw [h3] at hb3
        exact hb3
    | cons op2 rest =>
      have hd : ((op :: op2 :: rest).dropLast)
          = op :: (op2 :: rest).dropLast := rfl
      obtain ⟨env, m, heq, hpass⟩ :=
        hpre op (by rw [hd]; exact List.mem_cons_self _ _)
      subst heq
      have hid : env.getActorId s.address = s.actor_id := by
        rw [hsa, hsi]
        exact hpass
      obtain ⟨hc1, hc2, hc3⟩ := update_alive_deleteCounts env s m hid
      have hrun : runTrace s (TraceOp.update env m :: op2 :: rest)
          = runTrace (s.update env m) (op2 :: rest) := rfl
      rw [hrun]
      exact ih (s.update env m)
        (by rw [update_address, hsa])
        (by rw [update_actor_id, hsi])
        (by rw [hc1, h1])
        (by rw [hc2, h2])
        (by rw [hc3, h3])
        (fun o ho => hpre o (by rw [hd]; exact List.mem_cons_of_mem _ ho))

lemma init_deleteCounts (env0 : Env) (aid addr : Nat) (rn : String)
    (m0 : Coord) :
    (ShipModule.init env0 aid addr rn m0).circle.deleteCount = 0 ∧
    (ShipModule.init env0 aid addr rn m0).icon.deleteCount = 0 ∧
    (ShipModule.init env0 aid addr rn m0).text_render.deleteCount = 0 := by
  unfold ShipModule.init
  cases hsc : env0.objectToScreen m0
      (env0.coordBuilder (env0.getRootCompAddress addr) env0.coordOffset) <;>
    simp [hsc]

/-- C8 counterexample: on a freshly constructed record, a first `update`
with a failing identity check deletes the visuals and sets `to_delete`;
a second `update` call (still failing the check) deletes all three visuals
AGAIN — every delete counter reaches 2, refuting "no later call deletes
any of them again". -/
theorem C8_counterexample :
    (runTrace (ShipModule.init envBase 1 100 "BP_SmallShipTemplate_C" coord0)
        [TraceOp.update envMismatch coord0]).to_delete = true ∧
    (runTrace (ShipModule.init envBase 1 100 "BP_SmallShipTemplate_C" coord0)
        [TraceOp.update envMismatch coord0]).circle.deleteCount = 1 ∧
    (runTrace (ShipModule.init envBase 1 100 "BP_SmallShipTemplate_C" coord0)
        [TraceOp.update envMismatch coord0,
         TraceOp.update envMismatch coord0]).circle.deleteCount = 2 ∧
    (runTrace (ShipModule.init envBase 1 100 "BP_SmallShipTemplate_C" coord0)
        [TraceOp.update envMismatch coord0,
         TraceOp.update envMismatch coord0]).icon.deleteCount = 2 ∧
    (runTrace (ShipModule.init envBase 1 100 "BP_SmallShipTemplate_C" coord0)
        [TraceOp.update envMismatch coord0,
         TraceOp.update envMismatch coord0]).text_render.deleteCount
        = 2 := by
  decide

/-- C8 (amended): over any sequence of `update`/`dispose` calls on a
freshly constructed record in which every call before the last is an
`update` whose identity check passes — i.e. the registry stops driving the
record after its first terminal transition or disposal, as the spec's
caller contract demands — each of the three visuals is deleted at most
once.  (The code itself does not guard against further calls: see the
counterexample.) -/
theorem C8_delete_at_most_once_amended (env0 : Env) (aid addr : Nat)
    (rn : String) (m0 : Coord) (ops : List TraceOp)
    (hpre : ∀ op ∈ ops.dropLast, ∃ env m, op = TraceOp.update env m ∧
      env.getActorId addr = aid) :
    (runTrace (ShipModule.init env0 aid addr rn m0) ops).circle.deleteCount
        ≤ 1 ∧
    (runTrace (ShipModule.init env0 aid addr rn m0) ops).icon.deleteCount
        ≤ 1 ∧
    (runTrace (ShipModule.init env0 aid addr rn
        m0) ops).text_render.deleteCount ≤ 1 := by
  obtain ⟨d1, d2, d3⟩ := init_deleteCounts env0 aid addr rn m0
  exact runTrace_deleteCounts_le addr aid ops _ rfl rfl d1 d2 d3 hpre

/-- C8 witness: a passing update followed by one failing update deletes
each visual at most once. -/
theorem C8_delete_at_most_once_amended_witness :
    (runTrace (ShipModule.init envBase 1 100 "BP_SmallShipTemplate_C" coord0)
        [TraceOp.update envBase coord0,
         TraceOp.update envMismatch coord0]).circle.deleteCount ≤ 1 ∧
    (runTrace (ShipModule.init envBase 1 100 "BP_SmallShipTemplate_C" coord0)
        [TraceOp.update envBase coord0,
         TraceOp.update envMismatch coord0]).icon.deleteCount ≤ 1 ∧
    (runTrace (ShipModule.init envBase 1 100 "BP_SmallShipTemplate_C" coord0)
        [TraceOp.update envBase coord0,
         TraceOp.update envMismatch
           coord0]).text_render.deleteCount ≤ 1 :=
  C8_delete_at_most_once_amended envBase 1 100 "BP_SmallShipTemplate_C"
    coord0
    [TraceOp.update envBase coord0, TraceOp.update envMismatch coord0]
    (by
      intro op hop
      have hd : ([TraceOp.update envBase coord0,
          TraceOp.update envMismatch coord0] : List TraceOp).dropLast
          = [TraceOp.update envBase coord0] := rfl
      rw [hd, List.mem_singleton] at hop
      exact ⟨envBase, coord0, hop, rfl⟩)

end SoT
